import Mathlib

/-!
Shallow embedding of the PM2.5 data pipeline in `streamlit_app.py`:
the record normalizer and fetcher (`fetch_worldbank_pm25`, lines 16-53),
the resilient loader (`load_data_with_fallback`, lines 55-69), and the three
view computations inlined in `main` (snapshot, lines 112-119; ranking,
line 141; trend and pivot, lines 186-208).

Numbers: python floats are modelled as `ℚ` (the arithmetic the claims touch —
means, quantile interpolation, comparisons — is exact on the rationals);
python strings as `String`; machine ints as `Int`.
-/

namespace PM25

/-- One normalized row appended by the record loop of `fetch_worldbank_pm25`
(lines 44-49): `{"iso3": iso3, "country": country, "year": year_int,
"pm25": float(value)}`. -/
structure Obs where
  iso3 : String
  country : String
  year : Int
  pm25 : ℚ
deriving DecidableEq, Repr

instance {ε α : Type _} [DecidableEq ε] [DecidableEq α] : DecidableEq (Except ε α) :=
  fun x y =>
  match x, y with
  | .ok a, .ok b => if h : a = b then .isTrue (by rw [h]) else .isFalse (by simp [h])
  | .ok _, .error _ => .isFalse (by simp)
  | .error _, .ok _ => .isFalse (by simp)
  | .error e, .error f => if h : e = f then .isTrue (by rw [h]) else .isFalse (by simp [h])

/-- One raw API record `rec`, as observed through the exact accesses the loop
performs (lines 34-37):

* `countryiso3code` models `rec.get("countryiso3code")`: `none` when the key is
  absent or null, otherwise the string.
* `value` models `rec.get("value")` together with the later `float(value)`
  coercion (line 48): `none` when the key is absent or the value is null
  (so `value is None` holds); `some none` when a non-null value is present but
  `float(value)` raises; `some (some q)` when `float(value)` returns `q`.
* `country` models the unguarded lookup `rec["country"]["value"]` (line 36):
  `none` when that expression raises (the `country` key is absent, or not a
  map, or has no `value` key); `some c` when it evaluates to `c`
  (`c = none` being JSON null).
* `date` models `rec.get("date")` together with the later `int(year)` parse
  (line 41): `none` when absent or null; `some none` when present but
  `int(year)` raises; `some (some y)` when it parses to `y`. -/
structure RawRecord where
  countryiso3code : Option String
  value : Option (Option ℚ)
  country : Option (Option String)
  date : Option (Option Int)
deriving DecidableEq, Repr

/-- Result of running the body of the record loop (lines 33-49) on one record:
`exn` — an exception escapes the loop (and hence `fetch_worldbank_pm25`);
`reject` — the record is skipped by `continue`; `ok o` — row `o` is appended. -/
inductive NormResult where
  | exn
  | reject
  | ok (o : Obs)
deriving DecidableEq, Repr

/-- The body of the record loop of `fetch_worldbank_pm25` (lines 33-49).
`rec["country"]["value"]` is evaluated before the rejection test, so a record
whose `country` field is missing raises even if other fields are also bad.
The guard on line 38 is `not iso3 or value is None or country is None or
year is None` (`not iso3` is true for both a missing code and the empty
string); the `try`/`except` covers only `int(year)`, so `float(value)` on
line 48 raises out of the loop when the value is not float-coercible. -/
def normalizeRecord (rec : RawRecord) : NormResult :=
  match rec.country with
  | none => .exn
  | some country =>
    if rec.countryiso3code = none ∨ rec.countryiso3code = some "" ∨
        rec.value = none ∨ country = none ∨ rec.date = none then
      .reject
    else
      match rec.date, rec.value with
      | some none, _ => .reject
      | some (some y), some (some v) =>
        .ok { iso3 := rec.countryiso3code.getD ""
              country := country.getD ""
              year := y
              pm25 := v }
      | some (some _), some none => .exn
      | _, _ => .reject

/-- The whole record loop: accumulates the appended rows in order; a record
whose body raises aborts the loop (the exception propagates out of
`fetch_worldbank_pm25`). -/
def normalizeAll : List RawRecord → Except Unit (List Obs)
  | [] => .ok []
  | rec :: rest =>
    match normalizeRecord rec with
    | .exn => .error ()
    | .reject => normalizeAll rest
    | .ok o => (normalizeAll rest).map (o :: ·)

/-- Row order used by `df.sort_values(["country", "year"])` (line 52):
lexicographic on the country display name, then the year. -/
def ObsLe (a b : Obs) : Prop :=
  a.country < b.country ∨ (a.country = b.country ∧ a.year ≤ b.year)

instance : DecidableRel ObsLe := fun a b =>
  haveI : Decidable (a.country < b.country) :=
    decidable_of_iff _ String.lt_iff_toList_lt.symm
  inferInstanceAs (Decidable (_ ∨ _))

instance : IsTotal Obs ObsLe where
  total a b := by
    rcases lt_trichotomy a.country b.country with h | h | h
    · exact Or.inl (Or.inl h)
    · rcases le_total a.year b.year with h2 | h2
      · exact Or.inl (Or.inr ⟨h, h2⟩)
      · exact Or.inr (Or.inr ⟨h.symm, h2⟩)
    · exact Or.inr (Or.inl h)

instance : IsTrans Obs ObsLe where
  trans a b c hab hbc := by
    rcases hab with h1 | ⟨e1, y1⟩
    · rcases hbc with h2 | ⟨e2, _⟩
      · exact Or.inl (h1.trans h2)
      · exact Or.inl (e2 ▸ h1)
    · rcases hbc with h2 | ⟨e2, y2⟩
      · exact Or.inl (e1 ▸ h2)
      · exact Or.inr ⟨e1.trans e2, y1.trans y2⟩

/-- Lines 51-52: `pd.DataFrame(rows)` then
`df.sort_values(["country", "year"]).reset_index(drop=True)`.
When `rows` is empty, `pd.DataFrame([])` has no columns at all, and
`sort_values` raises `KeyError: 'country'`, so the empty case raises rather
than returning an empty table.  When `rows` is non-empty every row supplies
the four columns and the sort is a stable lexicographic sort on
`(country, year)` (pandas uses `np.lexsort` for a multi-key `by`, which is
stable), modelled by insertion sort — any stable sort computes the same
list. -/
def sortTable (rows : List Obs) : Except Unit (List Obs) :=
  match rows with
  | [] => .error ()
  | _ => .ok (rows.insertionSort ObsLe)

/-- Reasons `fetch_worldbank_pm25` raises, by source location:
`transport` — `requests.get`, `raise_for_status` or `resp.json()` (lines
25-27); `emptyEnvelope` — the `ValueError` on line 30 when the decoded JSON
is falsy or shorter than two elements; `recordExn` — an exception escaping
the record loop (lines 33-49); `sortKeyError` — the `KeyError` from
`sort_values` on a column-less empty frame (line 52). -/
inductive FetchErr where
  | transport
  | emptyEnvelope
  | recordExn
  | sortKeyError
deriving DecidableEq, Repr

/-- What the HTTP layer hands the fetcher: `transportError` — the request
itself fails (network error, timeout, non-2xx status, or undecodable JSON);
`shortEnvelope` — JSON decoded but falsy or with fewer than two elements;
`envelope records` — a well-formed two-element envelope whose second element
is the record array. -/
inductive ApiResponse where
  | transportError
  | shortEnvelope
  | envelope (records : List RawRecord)
deriving DecidableEq, Repr

/-- Embedding of `fetch_worldbank_pm25` (lines 17-53) as a function of the
API response it receives. -/
def fetch_worldbank_pm25 (resp : ApiResponse) : Except FetchErr (List Obs) :=
  match resp with
  | .transportError => .error .transport
  | .shortEnvelope => .error .emptyEnvelope
  | .envelope records =>
    match normalizeAll records with
    | .error _ => .error .recordExn
    | .ok rows =>
      match sortTable rows with
      | .error _ => .error .sortKeyError
      | .ok t => .ok t

/-- The cache file as seen through `os.path.exists(CACHE_FILE)` (line 63) and
`pd.read_csv(CACHE_FILE)` (line 64): `none` — no file; `some none` — the file
exists but `read_csv` raises on it; `some (some t)` — it parses to table
`t`. -/
def CacheFile : Type := Option (Option (List Obs))

/-- Outcome of one call to `load_data_with_fallback`: `ok table warning` — the
function returns `table`, having shown the warning when `warning` is present
(line 65, carrying the fetch error); `fatalStop err` — `st.error` then
`st.stop()` (lines 67-68): the script halts and no table is returned;
`uncaught` — an exception escapes the function itself. -/
inductive LoadOutcome where
  | ok (table : List Obs) (warning : Option FetchErr)
  | fatalStop (err : FetchErr)
  | uncaught
deriving DecidableEq, Repr

/-- Embedding of `load_data_with_fallback` (lines 55-69), as a function of the
fetch outcome and the cache-file state; `writeOk` says whether the best-effort
`df.to_csv(CACHE_FILE)` on line 59 succeeds (its failure is swallowed by the
inner `try`/`except` on lines 58-61).  Returns the outcome and the cache-file
state afterwards.  On fetch failure with an existing but unparseable cache
file, `pd.read_csv` raises inside the `except` block and nothing catches it,
so the outcome is `uncaught` — not the fatal `st.error`/`st.stop` path. -/
def load_data_with_fallback (fetch : Except FetchErr (List Obs))
    (cache : CacheFile) (writeOk : Bool) : LoadOutcome × CacheFile :=
  match fetch with
  | .ok t => (.ok t none, if writeOk then some (some t) else cache)
  | .error e =>
    match cache with
    | none => (.fatalStop e, none)
    | some none => (.uncaught, some none)
    | some (some t) => (.ok t (some e), some (some t))

/-- Session-scoped state backing `@st.cache_data` on `fetch_worldbank_pm25`
(line 16): memoized results keyed on the argument (`start_year`), plus a
count of network requests actually issued. -/
structure Session where
  memo : List (Int × List Obs)
  netCalls : Nat
deriving DecidableEq, Repr

/-- Lookup of a memoized fetch result for parameter `p`. -/
def memoLookup (p : Int) : List (Int × List Obs) → Option (List Obs)
  | [] => none
  | (q, t) :: rest => if q = p then some t else memoLookup p rest

/-- The memoized fetcher: on a cache hit `st.cache_data` returns the stored
table without running the function body (no network request); on a miss it
runs `fetch_worldbank_pm25` (one network request) and stores the result only
when the body returns normally (exceptions are not cached). -/
def fetchCached (net : Int → ApiResponse) (p : Int) (s : Session) :
    Except FetchErr (List Obs) × Session :=
  match memoLookup p s.memo with
  | some t => (.ok t, s)
  | none =>
    match fetch_worldbank_pm25 (net p) with
    | .ok t => (.ok t, ⟨(p, t) :: s.memo, s.netCalls + 1⟩)
    | .error e => (.error e, ⟨s.memo, s.netCalls + 1⟩)

/-- One call to `load_data_with_fallback(start_year=p)` inside a session:
the fetch goes through the `st.cache_data` memo, and the result feeds the
fallback logic.  Returns (outcome, cache file afterwards, session
afterwards). -/
def load_session (net : Int → ApiResponse) (p : Int) (cache : CacheFile)
    (writeOk : Bool) (s : Session) : LoadOutcome × CacheFile × Session :=
  let fr := fetchCached net p s
  let lo := load_data_with_fallback fr.1 cache writeOk
  (lo.1, lo.2, fr.2)

/-- Line 112: `df_year = df[df['year'] == year_select]`. -/
def filterYear (rows : List Obs) (y : Int) : List Obs :=
  rows.filter fun o => o.year = y

/-- Grouping key of line 113: the `['iso3', 'country']` column pair. -/
def snapKey (o : Obs) : String × String := (o.iso3, o.country)

/-- One row of `df_grouped` (lines 113-114): the group key plus the per-group
mean of `pm25`, renamed to `value`. -/
structure GRow where
  iso3 : String
  country : String
  value : ℚ
deriving DecidableEq, Repr

/-- Order in which pandas `groupby(sort=True)` (the default on line 113)
emits the group keys: lexicographic on `(iso3, country)`. -/
def KeyLe (a b : String × String) : Prop :=
  a.1 < b.1 ∨ (a.1 = b.1 ∧ a.2 ≤ b.2)

instance : DecidableRel KeyLe := fun a b =>
  haveI : Decidable (a.1 < b.1) :=
    decidable_of_iff _ String.lt_iff_toList_lt.symm
  haveI : Decidable (a.2 ≤ b.2) :=
    decidable_of_iff _ String.le_iff_toList_le.symm
  inferInstanceAs (Decidable (_ ∨ _))

/-- Arithmetic mean of a list of values, as `groupby(...).mean()` computes it
per group (the group is never empty, so the division is by a positive
count). -/
def mean (vs : List ℚ) : ℚ := vs.sum / vs.length

/-- Lines 113-114:
`df_year.groupby(['iso3', 'country'], as_index=False)['pm25'].mean()` with
`pm25` renamed to `value`: one output row per distinct `(iso3, country)` key,
keys in sorted order, carrying the mean of the `pm25` values of the rows in
that group. -/
def groupbyMean (rows : List Obs) : List GRow :=
  (((rows.map snapKey).dedup).insertionSort KeyLe).map fun k =>
    { iso3 := k.1
      country := k.2
      value := mean ((rows.filter fun o => snapKey o = k).map Obs.pm25) }

/-- Linear-interpolation quantile of pandas `Series.quantile(q)` (line 117):
sort ascending, take position `q * (n - 1)`, interpolate linearly between the
neighbouring order statistics.  On an empty series pandas returns NaN,
modelled as `none`. -/
def quantile (vs : List ℚ) (q : ℚ) : Option ℚ :=
  let s := vs.insertionSort (· ≤ ·)
  if s.length = 0 then none
  else
    let n : Nat := s.length
    let pos : ℚ := q * ((n : ℚ) - 1)
    let i : Nat := ⌊pos⌋.toNat
    let frac : ℚ := pos - (i : ℚ)
    let lo := s.getD i 0
    let hi := s.getD (min (i + 1) (n - 1)) 0
    some (lo + frac * (hi - lo))

/-- Maximum of a pandas series (`df_grouped['value'].max()`, line 119): NaN —
modelled `none` — on an empty series, else the largest element. -/
def listMax : List ℚ → Option ℚ
  | [] => none
  | v :: rest => some (rest.foldl max v)

/-- The snapshot view (lines 112-119): filter to the selected year, group by
`(iso3, country)` with per-group mean, and compute the colour-scale maximum
`vmax` — the 0.99 quantile of the grouped values when `cap_outliers` is set,
else their maximum. -/
def snapshot_view (rows : List Obs) (year : Int) (cap_outliers : Bool) :
    List GRow × Option ℚ :=
  let g := groupbyMean (filterYear rows year)
  let vmax :=
    if cap_outliers then quantile (g.map GRow.value) (99 / 100)
    else listMax (g.map GRow.value)
  (g, vmax)

/-- Comparison used by `sort_values("value")` on the grouped table. -/
def ValueLe (a b : GRow) : Prop := a.value ≤ b.value

instance : DecidableRel ValueLe := fun a b =>
  inferInstanceAs (Decidable (a.value ≤ b.value))

instance : IsTotal GRow ValueLe where
  total a b := le_total a.value b.value

instance : IsTrans GRow ValueLe where
  trans _ _ _ hab hbc := le_trans hab hbc

/-- Line 141: `df_grouped.sort_values("value", ascending=False)`.  For a
single-key descending sort pandas (`nargsort`) computes an ascending argsort
and then reverses the whole indexer; numpy's sort on the small per-year
country tables at hand degenerates to a stable insertion sort, so the result
is the reverse of a stable ascending sort — rows with equal values therefore
come out in reversed input order. -/
def sort_values_desc (g : List GRow) : List GRow :=
  (g.insertionSort ValueLe).reverse

/-- The ranking view (line 141):
`df_grouped.sort_values("value", ascending=False).head(top_n)` — `head`
clamps to the available rows. -/
def ranking_view (g : List GRow) (topN : Nat) : List GRow :=
  (sort_values_desc g).take topN

/-- The trend view (lines 187-188): computed only when the country selection
is non-empty (the `if countries:` guard); the filter keeps the rows whose
`country` is in the selection and whose `year` lies in the inclusive range
(`Series.between` is inclusive on both ends by default). -/
def trend_view (rows : List Obs) (countries : List String)
    (yearStart yearEnd : Int) : List Obs :=
  match countries with
  | [] => []
  | _ =>
    rows.filter fun o =>
      o.country ∈ countries ∧ yearStart ≤ o.year ∧ o.year ≤ yearEnd

/-- Line 208: `df_ts.pivot(index='country', columns='year', values='pm25')`.
Pandas `DataFrame.pivot` raises
`ValueError: Index contains duplicate entries, cannot reshape` as soon as two
rows share the same `(country, year)` pair; otherwise every input row becomes
one `(country, year) ↦ value` cell of the wide table. -/
def pivotTrend (rows : List Obs) :
    Except Unit (List ((String × Int) × ℚ)) :=
  if (rows.map fun o => (o.country, o.year)).Nodup then
    .ok (rows.map fun o => ((o.country, o.year), o.pm25))
  else
    .error ()

/-! ## Theorems -/

/-- C1: Terminal failure of the loader — when the live fetch raises and no
cache snapshot file exists, `load_data_with_fallback` reaches `st.error` and
`st.stop()` (a fatal, user-visible halt naming the fetch error) and returns
no table, partial or otherwise. -/
theorem loader_terminal_failure (e : FetchErr) (w : Bool) :
    (load_data_with_fallback (.error e) none w).1 = .fatalStop e ∧
      ∀ t warn, (load_data_with_fallback (.error e) none w).1 ≠ .ok t warn := by
  refine ⟨rfl, fun t warn h => ?_⟩
  simp [load_data_with_fallback] at h

/-- C1 witness: concrete run of the terminal-failure path. -/
theorem loader_terminal_failure_witness :
    (load_data_with_fallback (.error .transport) none true).1 = .fatalStop .transport ∧
      ∀ t warn,
        (load_data_with_fallback (.error .transport) none true).1 ≠ .ok t warn :=
  loader_terminal_failure .transport true

/-- C2 counterexample: when the live fetch fails and the cache snapshot file
exists but cannot be parsed, `pd.read_csv` raises inside the `except` block
and nothing catches it — the loader throws instead of returning the snapshot
with a warning or taking the fatal `st.error`/`st.stop` path, refuting the
claim that `load_data_with_fallback` never throws in the
fetch-failed-and-snapshot-exists scenario. -/
theorem loader_fallback_unparseable_cache_throws :
    (load_data_with_fallback (.error .transport) (some none) true).1 = .uncaught :=
  rfl

/-- C2 (amended): when the live fetch fails and a parseable cache snapshot
exists, `load_data_with_fallback` returns exactly that snapshot's contents
with a non-fatal warning carrying the original fetch error, and does not
throw; when the snapshot exists but cannot be parsed, the parse exception
escapes uncaught (see the accompanying counterexample). -/
theorem loader_fallback_returns_snapshot (e : FetchErr) (t : List Obs) (w : Bool) :
    (load_data_with_fallback (.error e) (some (some t)) w).1 = .ok t (some e) :=
  rfl

/-- C2 witness: concrete run of the cache-hit fallback path. -/
theorem loader_fallback_returns_snapshot_witness :
    (load_data_with_fallback (.error .transport)
        (some (some [⟨"IND", "India", 2001, 7⟩])) true).1
      = .ok [⟨"IND", "India", 2001, 7⟩] (some .transport) :=
  loader_fallback_returns_snapshot .transport [⟨"IND", "India", 2001, 7⟩] true

/-- Helper: a successful memoized fetch leaves the session in a state where a
repeat call with the same parameter is answered from the memo, returning the
same table and touching the network counter not at all. -/
theorem fetchCached_ok_state (net : Int → ApiResponse) (p : Int) (s : Session)
    (t : List Obs) (h : (fetchCached net p s).1 = .ok t) :
    fetchCached net p (fetchCached net p s).2 = (.ok t, (fetchCached net p s).2) := by
  cases hm : memoLookup p s.memo with
  | some t0 =>
    have h1 : fetchCached net p s = (.ok t0, s) := by simp [fetchCached, hm]
    rw [h1] at h ⊢
    simp only [Except.ok.injEq] at h
    subst h
    exact h1
  | none =>
    cases hf : fetch_worldbank_pm25 (net p) with
    | ok t0 =>
      have h1 : fetchCached net p s
          = (.ok t0, ⟨(p, t0) :: s.memo, s.netCalls + 1⟩) := by
        simp [fetchCached, hm, hf]
      rw [h1] at h ⊢
      simp only [Except.ok.injEq] at h
      subst h
      simp [fetchCached, memoLookup]
    | error e =>
      have h1 : fetchCached net p s
          = (.error e, ⟨s.memo, s.netCalls + 1⟩) := by
        simp [fetchCached, hm, hf]
      rw [h1] at h
      simp at h

/-- C10: Memoization idempotence — within one session, if the first call's
live fetch succeeded with table `t`, a second call with the same fetch
parameter returns the bit-identical table, a bit-identical outcome, and
issues no further network request (`netCalls` unchanged). -/
theorem load_memoized_idempotent (net : Int → ApiResponse) (p : Int)
    (c₁ c₂ : CacheFile) (w₁ w₂ : Bool) (s₀ : Session) (t : List Obs)
    (h : (fetchCached net p s₀).1 = .ok t) :
    (load_session net p c₁ w₁ s₀).1 = .ok t none ∧
      (load_session net p c₂ w₂ (load_session net p c₁ w₁ s₀).2.2).1 = .ok t none ∧
      (load_session net p c₂ w₂ (load_session net p c₁ w₁ s₀).2.2).2.2.netCalls
        = (load_session net p c₁ w₁ s₀).2.2.netCalls := by
  have key := fetchCached_ok_state net p s₀ t h
  refine ⟨?_, ?_, ?_⟩
  · simp [load_session, h, load_data_with_fallback]
  · simp [load_session, key, load_data_with_fallback]
  · simp [load_session, key]

/-- C10 witness: a concrete session in which the first fetch succeeds and the
second call is served from the memo. -/
theorem load_memoized_idempotent_witness :
    (load_session
          (fun _ => .envelope
            [⟨some "IND", some (some 7), some (some "India"), some (some 2001)⟩])
          1990 none true ⟨[], 0⟩).1
        = .ok [⟨"IND", "India", 2001, 7⟩] none ∧
      (load_session
            (fun _ => .envelope
              [⟨some "IND", some (some 7), some (some "India"), some (some 2001)⟩])
            1990 none true
            (load_session
                (fun _ => .envelope
                  [⟨some "IND", some (some 7), some (some "India"), some (some 2001)⟩])
                1990 none true ⟨[], 0⟩).2.2).1
        = .ok [⟨"IND", "India", 2001, 7⟩] none ∧
      (load_session
            (fun _ => .envelope
              [⟨some "IND", some (some 7), some (some "India"), some (some 2001)⟩])
            1990 none true
            (load_session
                (fun _ => .envelope
                  [⟨some "IND", some (some 7), some (some "India"), some (some 2001)⟩])
                1990 none true ⟨[], 0⟩).2.2).2.2.netCalls
        = ((load_session
              (fun _ => .envelope
                [⟨some "IND", some (some 7), some (some "India"), some (some 2001)⟩])
              1990 none true ⟨[], 0⟩).2.2).netCalls :=
  load_memoized_idempotent _ 1990 none none true true ⟨[], 0⟩
    [⟨"IND", "India", 2001, 7⟩] (by decide)

/-- C3 counterexample: a raw record whose nested `country` field is absent
makes the loop body raise (`rec["country"]["value"]`, a `KeyError`) instead
of silently rejecting the record, refuting the totality of the per-record
normalization step. -/
theorem normalizer_raises_on_missing_country :
    normalizeRecord ⟨some "KOR", some (some 10), none, some (some 2010)⟩ = .exn := by
  decide

/-- C3 (amended): the per-record step silently rejects (no exception) or
emits an Observation in every case except exactly two: when the nested
`country` lookup itself raises (key absent or not a map), and when a record
that survives every rejection test carries a value that `float` cannot
coerce.  Equivalently, the loop body raises precisely in those two cases. -/
theorem normalizer_totality_characterization (rec : RawRecord) :
    normalizeRecord rec = .exn ↔
      rec.country = none ∨
        (rec.countryiso3code ≠ none ∧ rec.countryiso3code ≠ some "" ∧
          (∃ c, rec.country = some (some c)) ∧
          (∃ y, rec.date = some (some y)) ∧ rec.value = some none) := by
  obtain ⟨i, v, c, d⟩ := rec
  cases c with
  | none => simp [normalizeRecord]
  | some c =>
    cases i with
    | none =>
      rcases v with _ | (_ | q) <;> rcases c with _ | name <;>
        rcases d with _ | (_ | y) <;> simp [normalizeRecord]
    | some s =>
      by_cases hs : s = "" <;>
        rcases v with _ | (_ | q) <;> rcases c with _ | name <;>
          rcases d with _ | (_ | y) <;> simp [normalizeRecord, hs]

/-- C3 witness: the characterization applied to a concrete record whose value
is present but not float-coercible. -/
theorem normalizer_totality_characterization_witness :
    normalizeRecord ⟨some "KOR", some none, some (some "Korea, Rep."), some (some 2010)⟩
      = .exn :=
  (normalizer_totality_characterization
      ⟨some "KOR", some none, some (some "Korea, Rep."), some (some 2010)⟩).mpr
    (Or.inr ⟨by decide, by decide, ⟨"Korea, Rep.", rfl⟩, ⟨2010, rfl⟩, rfl⟩)

/-- C4 counterexample: a well-formed two-element envelope whose only record
is rejected yields zero valid rows, and then `pd.DataFrame([])` has no
columns and `sort_values(["country", "year"])` raises `KeyError` — the
zero-valid-row envelope is not a legitimate non-error return producing an
empty table; `fetch_worldbank_pm25` raises instead. -/
theorem fetcher_raises_on_empty_result :
    fetch_worldbank_pm25
        (.envelope [⟨none, some (some 5), some (some "Korea"), some (some 2000)⟩])
      = .error .sortKeyError := by
  decide

/-- C4 (amended): for a well-formed two-element envelope whose records all
normalize without exception and which yields at least one valid row,
`fetch_worldbank_pm25` returns (without raising) a table that is a
permutation of exactly the originally-valid records — so its length is the
count of valid records — sorted non-decreasingly by `(country_name, year)`.
An envelope yielding zero valid rows raises instead of returning an empty
table (see the accompanying counterexample). -/
theorem fetcher_postcondition (records : List RawRecord) (rows : List Obs)
    (h1 : normalizeAll records = .ok rows) (h2 : rows ≠ []) :
    ∃ t, fetch_worldbank_pm25 (.envelope records) = .ok t ∧
      t.Perm rows ∧ t.Sorted ObsLe ∧ t.length = rows.length := by
  refine ⟨rows.insertionSort ObsLe, ?_, List.perm_insertionSort _ _,
    List.sorted_insertionSort _ _, List.length_insertionSort _ _⟩
  cases rows with
  | nil => exact absurd rfl h2
  | cons a l => simp [fetch_worldbank_pm25, h1, sortTable]

/-- C4 witness: a concrete envelope with one rejected and two valid records,
returned sorted by country name. -/
theorem fetcher_postcondition_witness :
    ∃ t : List Obs, fetch_worldbank_pm25
          (.envelope
            [⟨some "IND", some (some 7), some (some "India"), some (some 2001)⟩,
             ⟨none, some (some 5), some (some "Korea"), some (some 2000)⟩,
             ⟨some "CHN", some (some 9), some (some "China"), some (some 2000)⟩])
        = .ok t ∧
      t.Perm [⟨"IND", "India", 2001, 7⟩, ⟨"CHN", "China", 2000, 9⟩] ∧
      t.Sorted ObsLe ∧
      t.length
        = ([⟨"IND", "India", 2001, 7⟩, ⟨"CHN", "China", 2000, 9⟩] : List Obs).length :=
  fetcher_postcondition _ _ (by decide) (by decide)

/-- Helper: a row emitted by the loop body always carries a non-empty
`iso3` (the `not iso3` test rejects both a missing and an empty code). -/
theorem normalizeRecord_ok_iso3 (rec : RawRecord) (o : Obs)
    (h : normalizeRecord rec = .ok o) : o.iso3 ≠ "" := by
  obtain ⟨i, v, c, d⟩ := rec
  cases c with
  | none => simp [normalizeRecord] at h
  | some c =>
    cases i with
    | none =>
      rcases v with _ | (_ | q) <;> rcases c with _ | name <;>
        rcases d with _ | (_ | y) <;> simp [normalizeRecord] at h
    | some s =>
      by_cases hs : s = "" <;>
        rcases v with _ | (_ | q) <;> rcases c with _ | name <;>
          rcases d with _ | (_ | y) <;> simp [normalizeRecord, hs] at h
      rw [← h]
      simpa using hs

/-- Helper: every row accumulated by the record loop comes from some record
the loop accepted. -/
theorem normalizeAll_mem (records : List RawRecord) (rows : List Obs)
    (h : normalizeAll records = .ok rows) (o : Obs) (ho : o ∈ rows) :
    ∃ rec ∈ records, normalizeRecord rec = .ok o := by
  induction records generalizing rows with
  | nil =>
    simp [normalizeAll] at h
    subst h
    simp at ho
  | cons rec rest ih =>
    rw [normalizeAll] at h
    cases hn : normalizeRecord rec with
    | exn => rw [hn] at h; simp at h
    | reject =>
      rw [hn] at h
      obtain ⟨r, hr, hro⟩ := ih rows h ho
      exact ⟨r, List.mem_cons_of_mem _ hr, hro⟩
    | ok o' =>
      rw [hn] at h
      cases hrest : normalizeAll rest with
      | error e => rw [hrest] at h; simp [Except.map] at h
      | ok rows' =>
        rw [hrest] at h
        simp only [Except.map, Except.ok.injEq] at h
        subst h
        rcases List.mem_cons.mp ho with rfl | ho'
        · exact ⟨rec, List.mem_cons_self _ _, hn⟩
        · obtain ⟨r, hr, hro⟩ := ih rows' hrest ho'
          exact ⟨r, List.mem_cons_of_mem _ hr, hro⟩

/-- C8 (amended): every row of a table returned by `fetch_worldbank_pm25` has
a present, non-empty `country_code`; in the model `country_name` is a string
(non-null by construction, since a null name is rejected), `year` an integer
and `value` a rational (the result of the `float` coercion).  The code checks
neither that the code has exactly three letters nor that the value is
non-negative (see the accompanying counterexample). -/
theorem fetcher_row_invariant (resp : ApiResponse) (t : List Obs)
    (h : fetch_worldbank_pm25 resp = .ok t) :
    ∀ o ∈ t, o.iso3 ≠ "" := by
  intro o ho
  cases resp with
  | transportError => simp [fetch_worldbank_pm25] at h
  | shortEnvelope => simp [fetch_worldbank_pm25] at h
  | envelope records =>
    rw [fetch_worldbank_pm25] at h
    cases hn : normalizeAll records with
    | error e => rw [hn] at h; simp at h
    | ok rows =>
      rw [hn] at h
      cases rows with
      | nil => simp [sortTable] at h
      | cons a l =>
        simp only [sortTable, Except.ok.injEq] at h
        subst h
        have ho' : o ∈ a :: l := (List.mem_insertionSort ObsLe).mp ho
        obtain ⟨rec, _, hrec⟩ := normalizeAll_mem records (a :: l) hn o ho'
        exact normalizeRecord_ok_iso3 rec o hrec

/-- C8 counterexample: a record with a two-letter code and a negative value
passes every check, so the returned table contains a row violating both the
3-letter-ISO and the non-negativity parts of the claimed invariant. -/
theorem fetcher_row_invariant_counterexample :
    fetch_worldbank_pm25
        (.envelope [⟨some "XY", some (some (-1)), some (some "Nowhere"), some (some 2000)⟩])
      = .ok [⟨"XY", "Nowhere", 2000, -1⟩] ∧
      ¬ (0 ≤ (-1 : ℚ)) ∧ "XY".length ≠ 3 := by
  refine ⟨by decide, by norm_num, by decide⟩

/-- C8 witness: the invariant evaluated on a concrete successful fetch. -/
theorem fetcher_row_invariant_witness :
    (⟨"IND", "India", 2001, 7⟩ : Obs).iso3 ≠ "" :=
  fetcher_row_invariant
    (.envelope [⟨some "IND", some (some 7), some (some "India"), some (some 2001)⟩])
    [⟨"IND", "India", 2001, 7⟩] (by decide) _ (by decide)

/-- Helper: the grouped component of the snapshot view is the year-filtered,
key-grouped mean table. -/
theorem snapshot_view_fst (rows : List Obs) (y : Int) (cap : Bool) :
    (snapshot_view rows y cap).1 = groupbyMean (filterYear rows y) :=
  rfl

/-- Helper: on an already-sorted list, `quantile` needs no re-sorting. -/
theorem quantile_sorted (vs : List ℚ) (q : ℚ) (h : vs.Sorted (· ≤ ·)) :
    quantile vs q
      = if vs.length = 0 then none
        else
          some (vs.getD ⌊q * ((vs.length : ℚ) - 1)⌋.toNat 0 +
            (q * ((vs.length : ℚ) - 1) - (⌊q * ((vs.length : ℚ) - 1)⌋.toNat : ℚ)) *
              (vs.getD (min (⌊q * ((vs.length : ℚ) - 1)⌋.toNat + 1) (vs.length - 1)) 0 -
                vs.getD ⌊q * ((vs.length : ℚ) - 1)⌋.toNat 0)) := by
  unfold quantile
  rw [h.insertionSort_eq]

/-- Helper: the list `[1, 2, ..., 100]` of rationals is sorted. -/
theorem range_succ_sorted :
    ((List.range 100).map fun i : ℕ => ((i : ℚ) + 1)).Sorted (· ≤ ·) := by
  rw [List.Sorted, List.pairwise_map]
  exact (List.pairwise_lt_range 100).imp fun h =>
    add_le_add_right (by exact_mod_cast Nat.le_of_lt h) 1

/-- Helper: pandas' linear-interpolation 0.99 quantile of the grouped values
`[1, 2, ..., 100]` is `99.01`, not the maximum `100`. -/
theorem quantile_one_to_hundred :
    quantile ((List.range 100).map fun i : ℕ => ((i : ℚ) + 1)) (99 / 100)
      = some (9901 / 100) := by
  rw [quantile_sorted _ _ range_succ_sorted]
  have hlen : ((List.range 100).map fun i : ℕ => ((i : ℚ) + 1)).length = 100 := by
    simp
  rw [hlen]
  have hpos : (99 / 100 : ℚ) * (((100 : ℕ) : ℚ) - 1) = 9801 / 100 := by
    norm_num
  rw [hpos]
  have hfloor : ⌊(9801 / 100 : ℚ)⌋ = 98 := by
    rw [Int.floor_eq_iff] <;> norm_num
  rw [hfloor]
  have htn : (98 : ℤ).toNat = 98 := rfl
  rw [htn]
  have hmin : min (98 + 1) (100 - 1) = 99 := by norm_num
  rw [hmin]
  have h98 : ((List.range 100).map fun i : ℕ => ((i : ℚ) + 1)).getD 98 0 = 99 := by
    rw [List.getD_eq_getElem?_getD, List.getElem?_map,
      List.getElem?_range (by norm_num : (98 : ℕ) < 100)]
    norm_num
  have h99 : ((List.range 100).map fun i : ℕ => ((i : ℚ) + 1)).getD 99 0 = 100 := by
    rw [List.getD_eq_getElem?_getD, List.getElem?_map,
      List.getElem?_range (by norm_num : (99 : ℕ) < 100)]
    norm_num
  rw [h98, h99]
  norm_num

/-- C5: Snapshot view correctness — the grouped table of
`snapshot_view rows y cap` has, for each of its rows, at least one matching
`(iso3, country)` row of the year-`y` slice and carries the arithmetic mean
of exactly the matching values (duplicates averaged, not an error); every
year-`y` row of the input is represented by a group; `color_scale_max` is the
0.99 quantile of the grouped values when `cap_outliers` is set and their
maximum otherwise; and on grouped values `1..100` that 99th percentile is
`99.01 ≈ 99`, not `100`. -/
theorem snapshot_view_spec (rows : List Obs) (y : Int) (cap : Bool) :
    (∀ gr ∈ (snapshot_view rows y cap).1,
        (filterYear rows y).filter (fun o => snapKey o = (gr.iso3, gr.country)) ≠ [] ∧
        gr.value
          = mean (((filterYear rows y).filter
              (fun o => snapKey o = (gr.iso3, gr.country))).map Obs.pm25)) ∧
    (∀ o ∈ rows, o.year = y →
        ∃ gr ∈ (snapshot_view rows y cap).1,
          gr.iso3 = o.iso3 ∧ gr.country = o.country) ∧
    ((snapshot_view rows y cap).2
      = if cap then quantile ((snapshot_view rows y cap).1.map GRow.value) (99 / 100)
        else listMax ((snapshot_view rows y cap).1.map GRow.value)) ∧
    quantile ((List.range 100).map fun i : ℕ => ((i : ℚ) + 1)) (99 / 100)
      = some (9901 / 100) := by
  refine ⟨?_, ?_, ?_, ?_⟩
  · intro gr hgr
    rw [snapshot_view_fst, groupbyMean] at hgr
    obtain ⟨k, hk, rfl⟩ := List.mem_map.mp hgr
    have hk2 : k ∈ ((filterYear rows y).map snapKey).dedup :=
      (List.mem_insertionSort _).mp hk
    obtain ⟨o, ho, hko⟩ := List.mem_map.mp (List.mem_dedup.mp hk2)
    constructor
    · refine List.ne_nil_of_mem (a := o) (List.mem_filter.mpr ⟨ho, ?_⟩)
      simp [hko, Prod.mk.eta]
    · simp [Prod.mk.eta]
  · intro o ho hy
    have ho' : o ∈ filterYear rows y := List.mem_filter.mpr ⟨ho, by simp [hy]⟩
    have hk3 : snapKey o ∈ ((filterYear rows y).map snapKey).dedup.insertionSort KeyLe :=
      (List.mem_insertionSort _).mpr (List.mem_dedup.mpr (List.mem_map_of_mem _ ho'))
    exact ⟨_, by rw [snapshot_view_fst, groupbyMean]; exact List.mem_map_of_mem _ hk3,
      rfl, rfl⟩
  · cases cap <;> rfl
  · exact quantile_one_to_hundred

/-- C5 witness: the capping fact extracted at a concrete instantiation. -/
theorem snapshot_view_spec_witness :
    quantile ((List.range 100).map fun i : ℕ => ((i : ℚ) + 1)) (99 / 100)
      = some (9901 / 100) :=
  (snapshot_view_spec [] 0 true).2.2.2

/-- C6 counterexample: on a grouped table with two equal-value rows, the
descending sort reverses the original (stable, country-name-sorted) order of
the ties — pandas builds a descending sort by reversing an ascending argsort
— so the ranking view does not break ties by stable input order. -/
theorem ranking_view_ties_reversed :
    ranking_view [⟨"AAA", "A", 10⟩, ⟨"BBB", "B", 10⟩] 2
        = [⟨"BBB", "B", 10⟩, ⟨"AAA", "A", 10⟩] ∧
      ranking_view [⟨"AAA", "A", 10⟩, ⟨"BBB", "B", 10⟩] 2
        ≠ [⟨"AAA", "A", 10⟩, ⟨"BBB", "B", 10⟩] := by
  decide

/-- C6 (amended): the ranking view returns the `top_n` rows of the grouped
table in non-increasing value order, with `top_n` clamped to the available
rows; the returned rows together with the dropped remainder are a permutation
of the grouped table and every returned value is at least every dropped one
(so they are genuinely the top `top_n`); ties, however, come out in reversed
input order, not stable order (see the accompanying counterexample). -/
theorem ranking_view_spec (g : List GRow) (n : Nat) :
    ∃ rest, (ranking_view g n ++ rest).Perm g ∧
      (ranking_view g n).Sorted (fun a b => b.value ≤ a.value) ∧
      (ranking_view g n).length = min n g.length ∧
      ∀ x ∈ ranking_view g n, ∀ y ∈ rest, y.value ≤ x.value := by
  have hdesc : (sort_values_desc g).Sorted (fun a b => b.value ≤ a.value) := by
    rw [sort_values_desc, List.Sorted, List.pairwise_reverse]
    exact List.sorted_insertionSort ValueLe g
  refine ⟨(sort_values_desc g).drop n, ?_, ?_, ?_, ?_⟩
  · rw [ranking_view, List.take_append_drop, sort_values_desc]
    exact ((g.insertionSort ValueLe).reverse_perm).trans (List.perm_insertionSort _ _)
  · exact List.Pairwise.sublist (List.take_sublist n _) hdesc
  · rw [ranking_view, List.length_take, sort_values_desc, List.length_reverse,
      List.length_insertionSort]
  · have h : List.Pairwise (fun a b => b.value ≤ a.value)
        (List.take n (sort_values_desc g) ++ List.drop n (sort_values_desc g)) := by
      rw [List.take_append_drop]
      exact hdesc
    exact (List.pairwise_append.mp h).2.2

/-- C6 witness: the top-2 characterization at the spec's example table. -/
theorem ranking_view_spec_witness :
    ∃ rest,
      (ranking_view [⟨"AAA", "A", 10⟩, ⟨"BBB", "B", 30⟩, ⟨"CCC", "C", 20⟩] 2
          ++ rest).Perm [⟨"AAA", "A", 10⟩, ⟨"BBB", "B", 30⟩, ⟨"CCC", "C", 20⟩] ∧
      (ranking_view [⟨"AAA", "A", 10⟩, ⟨"BBB", "B", 30⟩, ⟨"CCC", "C", 20⟩] 2).Sorted
        (fun a b => b.value ≤ a.value) ∧
      (ranking_view [⟨"AAA", "A", 10⟩, ⟨"BBB", "B", 30⟩, ⟨"CCC", "C", 20⟩] 2).length
        = min 2 ([⟨"AAA", "A", 10⟩, ⟨"BBB", "B", 30⟩, ⟨"CCC", "C", 20⟩] : List GRow).length ∧
      ∀ x ∈ ranking_view [⟨"AAA", "A", 10⟩, ⟨"BBB", "B", 30⟩, ⟨"CCC", "C", 20⟩] 2,
        ∀ y ∈ rest, y.value ≤ x.value :=
  ranking_view_spec [⟨"AAA", "A", 10⟩, ⟨"BBB", "B", 30⟩, ⟨"CCC", "C", 20⟩] 2

/-- C7: Trend view correctness and graceful degradation — the trend view
returns exactly the rows whose country is in the selection and whose year
lies in the inclusive range, in original order and at original `(country,
year)` granularity (it is a sublist of the table, not an aggregate); an empty
country selection yields an empty result, and inverted year bounds yield an
empty result rather than an error. -/
theorem trend_view_spec (rows : List Obs) (countries : List String) (y0 y1 : Int) :
    (∀ o, o ∈ trend_view rows countries y0 y1 ↔
        o ∈ rows ∧ o.country ∈ countries ∧ y0 ≤ o.year ∧ o.year ≤ y1) ∧
    (trend_view rows countries y0 y1).Sublist rows ∧
    (countries = [] → trend_view rows countries y0 y1 = []) ∧
    (y1 < y0 → trend_view rows countries y0 y1 = []) := by
  cases countries with
  | nil =>
    refine ⟨fun o => ?_, List.nil_sublist _, fun _ => rfl, fun _ => rfl⟩
    simp [trend_view]
  | cons c cs =>
    refine ⟨fun o => ?_, List.filter_sublist _,
      fun h => absurd h (List.cons_ne_nil c cs), fun h => ?_⟩
    · simp [trend_view, List.mem_filter, and_assoc]
    · simp only [trend_view]
      rw [List.filter_eq_nil_iff]
      intro a _
      simp only [decide_eq_true_eq, not_and]
      intro _ h1 h2
      omega

/-- C7 witness: inverted year bounds on a concrete table yield no rows. -/
theorem trend_view_spec_witness :
    trend_view [⟨"IND", "India", 2012, 10⟩] ["India"] 2015 2010 = [] :=
  (trend_view_spec [⟨"IND", "India", 2012, 10⟩] ["India"] 2015 2010).2.2.2
    (by decide)

/-- C9 counterexample: two rows with the same `(country, year)` pair survive
the trend filter and make the pivot step raise (`DataFrame.pivot` refuses
duplicate index entries) — the pivoted form does not tolerate duplicates. -/
theorem trend_pivot_duplicate_raises :
    pivotTrend (trend_view
        [⟨"IND", "India", 2010, 10⟩, ⟨"IND", "India", 2010, 20⟩]
        ["India"] 2010 2010)
      = .error () := by
  decide

/-- C9 (amended): duplicate `(country_code, year)` rows are tolerated and
averaged by the snapshot view's grouping; the trend view's pivot, however,
raises an error exactly when the filtered slice still contains a duplicate
`(country, year)` pair, rather than producing a duplicate-averaged or
last-write cell. -/
theorem duplicate_handling :
    (∀ a b : Obs, a.iso3 = b.iso3 → a.country = b.country →
        groupbyMean [a, b] = [⟨a.iso3, a.country, (a.pm25 + b.pm25) / 2⟩]) ∧
    (∀ rows : List Obs,
        pivotTrend rows = .error ()
          ↔ ¬ (rows.map fun o => (o.country, o.year)).Nodup) := by
  constructor
  · intro a b h1 h2
    have hp : (b.iso3, b.country) = (a.iso3, a.country) := by rw [h1, h2]
    simp [groupbyMean, snapKey, mean, hp, h1.symm, h2.symm, List.insertionSort,
      List.dedup_cons_of_mem]
  · intro rows
    by_cases h : (rows.map fun o => (o.country, o.year)).Nodup <;>
      simp [pivotTrend, h]

/-- C9 witness: the snapshot grouping averages a concrete duplicated
country-year pair. -/
theorem duplicate_handling_witness :
    groupbyMean [⟨"IND", "India", 2010, 10⟩, ⟨"IND", "India", 2010, 20⟩]
      = [⟨"IND", "India", (10 + 20) / 2⟩] :=
  duplicate_handling.1 _ _ rfl rfl

end PM25
